import Mathlib

/-
Verification of the spotkit-python client library (src/spotkit/api.py)
against its natural-language specification.

The embedding models:
  - JSON values as returned by response.json(), together with Python
    truthiness and Python str() rendering (used by f-strings);
  - HTTP requests as records carrying method, url, query parameters,
    body, headers and basic-auth credentials;
  - the network as a Transport function from requests to outcomes
    (2xx body, non-2xx status, or transport-level failure);
  - each client method as a function that returns its result together
    with the list of HTTP requests it issued, in order.
-/

namespace SpotKit

/-- JSON values, also used for the Python values flowing through the
client (None is null, booleans, numbers, strings, lists, dicts). -/
inductive JVal where
  | null
  | bool (b : Bool)
  | num (n : Int)
  | str (s : String)
  | arr (elems : List JVal)
  | obj (fields : List (String × JVal))

/-- True exactly when the value is JSON null (Python None). -/
def JVal.isNull : JVal → Bool
  | .null => true
  | _ => false

/-- Python truthiness of a JSON-decoded value: None, False, 0, empty
string, empty list and empty dict are falsy, everything else truthy. -/
def JVal.truthy : JVal → Bool
  | .null => false
  | .bool b => b
  | .num n => n != 0
  | .str s => s != ""
  | .arr elems => !elems.isEmpty
  | .obj fields => !fields.isEmpty

/-- Escapes the two characters that matter for JSON string syntax.
Control-character escaping is irrelevant to every claim and omitted. -/
def jsEscape (s : String) : String :=
  s.foldl (fun acc c =>
    if c = '\\' then acc ++ "\\\\"
    else if c = '\"' then acc ++ "\\\""
    else acc.push c) ""

mutual

/-- Models json.dumps with its default separators (a comma-space
between items, a colon-space between key and value). -/
def JVal.dumps : JVal → String
  | .null => "null"
  | .bool true => "true"
  | .bool false => "false"
  | .num n => toString n
  | .str s => "\"" ++ jsEscape s ++ "\""
  | .arr elems => "[" ++ JVal.dumpsList elems ++ "]"
  | .obj fields => "\x7b" ++ JVal.dumpsFields fields ++ "\x7d"

/-- Serializes the elements of a JSON array, comma-space separated. -/
def JVal.dumpsList : List JVal → String
  | [] => ""
  | [v] => v.dumps
  | v :: rest => v.dumps ++ ", " ++ JVal.dumpsList rest

/-- Serializes the fields of a JSON object, comma-space separated. -/
def JVal.dumpsFields : List (String × JVal) → String
  | [] => ""
  | [(k, v)] => "\"" ++ jsEscape k ++ "\": " ++ v.dumps
  | (k, v) :: rest =>
      "\"" ++ jsEscape k ++ "\": " ++ v.dumps ++ ", " ++ JVal.dumpsFields rest

end

/-- Python str() of a JSON-decoded value, as interpolated by f-strings:
str(None) is "None", str(False) is "False", numbers print in decimal,
strings print verbatim. Containers use their serialized form; no claim
evaluates str() on a container, only on None, False and strings. -/
def JVal.pyStr : JVal → String
  | .null => "None"
  | .bool true => "True"
  | .bool false => "False"
  | .num n => toString n
  | .str s => s
  | .arr elems => JVal.dumps (.arr elems)
  | .obj fields => JVal.dumps (.obj fields)

/-- The single-key error mapping the verb helpers return on failure. -/
def errorObj (msg : String) : JVal :=
  .obj [("error", .str msg)]

/-- Lifts an optional Python string argument to a Python value. -/
def pyOfOptStr : Option String → JVal
  | none => .null
  | some s => .str s

/-- Python truthiness of an optional string: None and the empty string
are falsy. -/
def optStrTruthy : Option String → Bool
  | none => false
  | some s => s != ""

/-- Python exceptions that the modelled code can raise. -/
inductive PyErr where
  | valueError (msg : String)
  | attributeError (msg : String)
  | typeError (msg : String)
  | keyError (msg : String)
  | indexError (msg : String)

/-- Models v.get(k): succeeds with the optional field on a dict and
raises AttributeError on any other value. A missing key yields none,
which the caller reads as Python None. -/
def jGetAttr : JVal → String → Except PyErr (Option JVal)
  | .obj fields, k => .ok (List.lookup k fields)
  | _, _ => .error (.attributeError "object has no attribute get")

/-- Models v.get(k, d): like jGetAttr but substituting the default for
a missing key. -/
def jGetAttrD (v : JVal) (k : String) (d : JVal) : Except PyErr JVal :=
  match jGetAttr v k with
  | .ok (some x) => .ok x
  | .ok none => .ok d
  | .error e => .error e

/-- Models v[k] for a string key: KeyError when the dict lacks the key,
TypeError when the value is not a dict. -/
def jGetItemStr : JVal → String → Except PyErr JVal
  | .obj fields, k =>
      match List.lookup k fields with
      | some x => .ok x
      | none => .error (.keyError k)
  | _, _ => .error (.typeError "value is not subscriptable by a string key")

/-- Models v[0]: first element of a list, first character of a string,
IndexError when empty, TypeError on other values. -/
def jIndex0 : JVal → Except PyErr JVal
  | .arr (x :: _) => .ok x
  | .arr [] => .error (.indexError "list index out of range")
  | .str s =>
      match s.data with
      | c :: _ => .ok (.str ⟨[c]⟩)
      | [] => .error (.indexError "string index out of range")
  | _ => .error (.typeError "value is not subscriptable by an index")

/-- HTTP verbs used by the client. -/
inductive Method where
  | GET
  | POST
  | PATCH
  | DELETE
deriving DecidableEq

/-- Headers as an association list, as the client builds them. -/
abbrev Headers := List (String × String)

/-- One HTTP request as handed to the requests library: the verb, full
url, the params mapping (none when the call passes params=None), the
body, the headers, and optional basic-auth credentials. -/
structure Request where
  method : Method
  url : String
  params : Option (List (String × JVal))
  body : Option String
  headers : Headers
  auth : Option (String × String)

/-- Outcome of handing one request to the requests library: a 2xx
response with a decoded JSON body, a non-2xx status (on which
raise_for_status raises HTTPError), or a transport-level failure
(connection, DNS, timeout), which requests raises as a
RequestException before any response exists. -/
inductive HttpOutcome where
  | ok (body : JVal)
  | httpStatus (code : Nat)
  | netFail (msg : String)

/-- The network, modelled as a function from requests to outcomes. -/
abbrev Transport := Request → HttpOutcome

/-- The requests-library exceptions relevant here. HTTPError, raised by
raise_for_status, is a subclass of RequestException, so a handler for
RequestException catches both constructors. -/
inductive RequestException where
  | httpError (code : Nat) (url : String)
  | connectionError (msg : String)

/-- The message str(e) renders for a caught RequestException. -/
def RequestException.message : RequestException → String
  | .httpError code url => toString code ++ " Error for url: " ++ url
  | .connectionError msg => msg

/-- The body of each verb helper try block: issue the request, call
raise_for_status, decode JSON. Both failure outcomes surface as a
RequestException, HTTPError being one of its subclasses. -/
def tryRequest (T : Transport) (req : Request) : Except RequestException JVal :=
  match T req with
  | .ok body => .ok body
  | .httpStatus code => .error (.httpError code req.url)
  | .netFail msg => .error (.connectionError msg)

/-- Models how the requests library builds the transmitted query string
from the params mapping: an entry whose value is None is skipped, every
other value is rendered with str(); an empty-string value is kept and
transmitted as an empty value. Percent-encoding is irrelevant to the
claims and omitted. -/
def transmittedQuery : Option (List (String × JVal)) → List (String × String)
  | none => []
  | some ps => ps.filterMap (fun kv =>
      if kv.2.isNull then none else some (kv.1, kv.2.pyStr))

/-- The client state after construction: configuration fields plus the
headers dict built by the constructor. api_key is a Python value, since
a failed token exchange stores None or False there. -/
structure SpotKitAPI where
  version : String
  api_key : JVal
  client_id : Option String
  client_secret : Option String
  use_basic_auth : Bool
  headers : Headers

/-- The fixed base url of the remote API. -/
def BASE_URL : String := "https://api.latest.highspot.com"

/-- Builds the full url base/version/endpoint. -/
def SpotKitAPI._get_full_url (api : SpotKitAPI) (endpoint : String) : String :=
  BASE_URL ++ "/" ++ api.version ++ "/" ++ endpoint

/-- The headers dict the constructor builds: with basic auth the
Authorization value is the empty string, otherwise it is the f-string
"Bearer " followed by str(api_key). -/
def mkHeaders (use_basic_auth : Bool) (api_key : JVal) : Headers :=
  [("Authorization",
      if use_basic_auth then "" else "Bearer " ++ api_key.pyStr),
   ("Content-Type", "application/json")]

/-- Models _get_auth: basic-auth credentials exactly when the flag is
set and both client_id and client_secret are truthy, otherwise None. -/
def SpotKitAPI._get_auth (api : SpotKitAPI) : Option (String × String) :=
  if api.use_basic_auth && optStrTruthy api.client_id
      && optStrTruthy api.client_secret then
    some (api.client_id.getD "", api.client_secret.getD "")
  else none

/-- The request a _get call hands to the requests library. -/
def SpotKitAPI.getRequest (api : SpotKitAPI) (endpoint : String)
    (params : Option (List (String × JVal))) : Request :=
  { method := .GET
    url := api._get_full_url endpoint
    params := params
    body := none
    headers := api.headers
    auth := api._get_auth }

/-- The request a _post call hands to the requests library. The headers
argument falls back to the stored headers when absent or an empty dict
(the Python expression is: headers if headers else self.headers), and
the auth argument falls back to _get_auth when None (auth or
self._get_auth()). -/
def SpotKitAPI.postRequest (api : SpotKitAPI) (endpoint : String)
    (data : Option String) (auth : Option (String × String))
    (headers : Option Headers) : Request :=
  { method := .POST
    url := api._get_full_url endpoint
    params := none
    body := data
    headers :=
      match headers with
      | some h => if h.isEmpty then api.headers else h
      | none => api.headers
    auth :=
      match auth with
      | some a => some a
      | none => api._get_auth }

/-- The request a _patch call hands to the requests library. -/
def SpotKitAPI.patchRequest (api : SpotKitAPI) (endpoint : String)
    (data : Option String) : Request :=
  { method := .PATCH
    url := api._get_full_url endpoint
    params := none
    body := data
    headers := api.headers
    auth := api._get_auth }

/-- The request a _delete call hands to the requests library. -/
def SpotKitAPI.deleteRequest (api : SpotKitAPI) (endpoint : String) : Request :=
  { method := .DELETE
    url := api._get_full_url endpoint
    params := none
    body := none
    headers := api.headers
    auth := api._get_auth }

/-- Models _get: issue the request; the except clause catches every
RequestException, the HTTPError from raise_for_status included, and
returns the error mapping instead of raising. Returns the result and
the issued requests. -/
def SpotKitAPI._get (api : SpotKitAPI) (T : Transport) (endpoint : String)
    (params : Option (List (String × JVal))) : JVal × List Request :=
  let req := api.getRequest endpoint params
  match tryRequest T req with
  | .ok body => (body, [req])
  | .error e => (errorObj e.message, [req])

/-- Models _post, with the same blanket RequestException handler. -/
def SpotKitAPI._post (api : SpotKitAPI) (T : Transport) (endpoint : String)
    (data : Option String) (auth : Option (String × String))
    (headers : Option Headers) : JVal × List Request :=
  let req := api.postRequest endpoint data auth headers
  match tryRequest T req with
  | .ok body => (body, [req])
  | .error e => (errorObj e.message, [req])

/-- Models _patch, with the same blanket RequestException handler. -/
def SpotKitAPI._patch (api : SpotKitAPI) (T : Transport) (endpoint : String)
    (data : Option String) : JVal × List Request :=
  let req := api.patchRequest endpoint data
  match tryRequest T req with
  | .ok body => (body, [req])
  | .error e => (errorObj e.message, [req])

/-- Models _delete, with the same blanket RequestException handler. -/
def SpotKitAPI._delete (api : SpotKitAPI) (T : Transport)
    (endpoint : String) : JVal × List Request :=
  let req := api.deleteRequest endpoint
  match tryRequest T req with
  | .ok body => (body, [req])
  | .error e => (errorObj e.message, [req])

/-- The partially initialized client as it exists inside __init__ when
_get_bearer_token runs: configuration fields assigned, headers not yet
(modelled as the empty list; the token request supplies its own
non-empty headers, so the fallback is never consulted on that path). -/
def preClient (version : String) (api_key : Option String)
    (client_id client_secret : Option String) (use_basic_auth : Bool) :
    SpotKitAPI :=
  { version := version
    api_key := pyOfOptStr api_key
    client_id := client_id
    client_secret := client_secret
    use_basic_auth := use_basic_auth
    headers := [] }

/-- Models _get_bearer_token: POST the client-credentials form to the
token endpoint with basic auth and form headers; if the response dict
is truthy, take its access_token entry (Python None when absent),
otherwise return False. The except RequestException clause of the
source is unreachable because _post never raises a RequestException;
.get on a truthy non-dict body raises AttributeError, which nothing
catches. -/
def SpotKitAPI._get_bearer_token (pre : SpotKitAPI) (T : Transport) :
    Except PyErr JVal × List Request :=
  let r := pre._post T "auth/oauth2/token"
      (some "grant_type=client_credentials")
      (some (pre.client_id.getD "", pre.client_secret.getD ""))
      (some [("Content-Type", "application/x-www-form-urlencoded")])
  (if r.1.truthy then
    match jGetAttr r.1 "access_token" with
    | .ok (some v) => .ok v
    | .ok none => .ok .null
    | .error e => .error e
  else
    .ok (.bool false), r.2)

/-- The token-exchange request that construction issues. -/
def tokenRequest (version : String) (client_id client_secret : Option String) :
    Request :=
  (preClient version none client_id client_secret false).postRequest
    "auth/oauth2/token"
    (some "grant_type=client_credentials")
    (some (client_id.getD "", client_secret.getD ""))
    (some [("Content-Type", "application/x-www-form-urlencoded")])

/-- Models __init__: when basic auth is off, no api_key was supplied
(None or empty) and both client credentials are truthy, exchange the
credentials for a token before anything else; then build the headers
dict. Returns the constructed client (or the propagated exception) and
the requests issued during construction. -/
def SpotKitAPI.init (T : Transport) (version : String)
    (api_key : Option String) (client_id client_secret : Option String)
    (use_basic_auth : Bool) : Except PyErr SpotKitAPI × List Request :=
  let key0 := pyOfOptStr api_key
  let pre := preClient version api_key client_id client_secret use_basic_auth
  if !use_basic_auth && !key0.truthy && optStrTruthy client_id
      && optStrTruthy client_secret then
    let r := pre._get_bearer_token T
    match r.1 with
    | .ok key =>
        (.ok { pre with api_key := key, headers := mkHeaders use_basic_auth key },
         r.2)
    | .error e => (.error e, r.2)
  else
    (.ok { pre with headers := mkHeaders use_basic_auth key0 }, [])

/-- Models get_current_user: GET me with params=None. -/
def SpotKitAPI.get_current_user (api : SpotKitAPI) (T : Transport) :
    JVal × List Request :=
  api._get T "me" none

/-- Models list_users: build the six-entry params dict, drop the
entries whose value is None, GET users. Arguments are Python values;
the source defaults are limit=25, start=0 and None elsewhere. -/
def SpotKitAPI.list_users (api : SpotKitAPI) (T : Transport)
    (email limit start list_options with_fields exclude_fields : JVal) :
    JVal × List Request :=
  let params := [("email", email), ("limit", limit), ("start", start),
    ("list", list_options), ("with-fields", with_fields),
    ("exclude-fields", exclude_fields)]
  let params := params.filter (fun kv => !kv.2.isNull)
  api._get T "users" (some params)

/-- Models add_user: POST users with body json.dumps([user_data]). The
try block around it is dead in the model: dumps is total on JVal and
_post never raises. -/
def SpotKitAPI.add_user (api : SpotKitAPI) (T : Transport) (user_data : JVal) :
    JVal × List Request :=
  let json_data := JVal.dumps (.arr [user_data])
  api._post T "users" (some json_data) none none

/-- Models get_user: ValueError when id and email are both falsy; when
email is truthy, list users filtered by that email with list=all, take
collection[0][id] if the collection entry is truthy, else return the
not-found error mapping; finally GET users/{id} with the resolved or
supplied id rendered by str(). -/
def SpotKitAPI.get_user (api : SpotKitAPI) (T : Transport) (id email : JVal) :
    Except PyErr JVal × List Request :=
  if !id.truthy && !email.truthy then
    (.error (.valueError
      "You must specify at least one of user \x27id\x27 or user \x27email\x27."),
     [])
  else if email.truthy then
    let lu := api.list_users T email (.num 25) (.num 0) (.str "all") .null .null
    match jGetAttr lu.1 "collection" with
    | .error e => (.error e, lu.2)
    | .ok copt =>
      if (match copt with | some v => v.truthy | none => false) then
        match jGetItemStr lu.1 "collection" with
        | .error e => (.error e, lu.2)
        | .ok c =>
          match jIndex0 c with
          | .error e => (.error e, lu.2)
          | .ok first =>
            match jGetItemStr first "id" with
            | .error e => (.error e, lu.2)
            | .ok rid =>
                let r := api._get T ("users/" ++ rid.pyStr) none
                (.ok r.1, lu.2 ++ r.2)
      else
        (.ok (errorObj "User not found with the provided email."), lu.2)
  else
    let r := api._get T ("users/" ++ id.pyStr) none
    (.ok r.1, r.2)

/-- Models list_spots: the three-entry params dict is handed to the
requests library unfiltered; source defaults are limit=100, start=0. -/
def SpotKitAPI.list_spots (api : SpotKitAPI) (T : Transport)
    (role limit start : JVal) : JVal × List Request :=
  let params := [("role", role), ("limit", limit), ("start", start)]
  api._get T "spots" (some params)

/-- The loop body of get_spot_by_name over the collection elements:
spot.get raises AttributeError on a non-dict element; a dict whose
title entry equals the name (Python equality against a string) yields
its id entry, Python None when absent. -/
def findSpot (spot_name : String) : List JVal → Except PyErr (Option JVal)
  | [] => .ok none
  | spot :: rest =>
    match spot with
    | .obj fields =>
        if (match List.lookup "title" fields with
            | some (.str t) => t == spot_name
            | _ => false) then
          .ok (some ((List.lookup "id" fields).getD .null))
        else
          findSpot spot_name rest
    | _ => .error (.attributeError "object has no attribute get")

/-- Models get_spot_by_name: list spots, read collection with default
empty list, scan for the first title match, return its id or the
sentinel string. Iterating a non-list collection mirrors Python: a
string or dict iterates over characters or keys, whose .get raises
AttributeError unless empty; other scalars raise TypeError. -/
def SpotKitAPI.get_spot_by_name (api : SpotKitAPI) (T : Transport)
    (spot_name : String) (role : JVal) : Except PyErr JVal × List Request :=
  let ls := api.list_spots T role (.num 100) (.num 0)
  match jGetAttrD ls.1 "collection" (.arr []) with
  | .error e => (.error e, ls.2)
  | .ok coll =>
    match coll with
    | .arr spots =>
        match findSpot spot_name spots with
        | .ok (some idv) => (.ok idv, ls.2)
        | .ok none => (.ok (.str "Spot not found"), ls.2)
        | .error e => (.error e, ls.2)
    | .str s =>
        if s.isEmpty then (.ok (.str "Spot not found"), ls.2)
        else (.error (.attributeError "object has no attribute get"), ls.2)
    | .obj fields =>
        if fields.isEmpty then (.ok (.str "Spot not found"), ls.2)
        else (.error (.attributeError "object has no attribute get"), ls.2)
    | _ => (.error (.typeError "object is not iterable"), ls.2)

/-- Models list_items_in_spot: GET spots/{spot_id}/lists with the
unfiltered two-entry params dict; source defaults limit=100, start=0. -/
def SpotKitAPI.list_items_in_spot (api : SpotKitAPI) (T : Transport)
    (spot_id : String) (limit start : JVal) : JVal × List Request :=
  let params := [("limit", limit), ("start", start)]
  api._get T ("spots/" ++ spot_id ++ "/lists") (some params)

/-- Models list_groups: GET groups with the unfiltered three-entry
params dict; source defaults limit=100, start=0. -/
def SpotKitAPI.list_groups (api : SpotKitAPI) (T : Transport)
    (role limit start : JVal) : JVal × List Request :=
  let params := [("role", role), ("limit", limit), ("start", start)]
  api._get T "groups" (some params)

/-! Concrete clients and transports used to instantiate the theorems. -/

/-- A bearer-mode client with no key, as Python builds it when every
credential argument is left at its default. -/
def apiV1 : SpotKitAPI :=
  { version := "v1.0", api_key := .null, client_id := none,
    client_secret := none, use_basic_auth := false,
    headers := mkHeaders false .null }

/-- A network on which every request fails at the transport level. -/
def Tdown : Transport := fun _ => .netFail "down"

/-- A network on which every request comes back with status 500. -/
def T500 : Transport := fun _ => .httpStatus 500

/-- A network on which every request succeeds with a token body. -/
def Tok : Transport := fun _ => .ok (.obj [("access_token", .str "tok")])

/-- A network on which every request succeeds with an empty collection. -/
def TemptyColl : Transport := fun _ => .ok (.obj [("collection", .arr [])])

/-! Shared lemmas about the verb helpers. -/

/-- A _get call issues exactly its one request, whatever the outcome. -/
theorem get_trace (api : SpotKitAPI) (T : Transport) (endpoint : String)
    (params : Option (List (String × JVal))) :
    (api._get T endpoint params).2 = [api.getRequest endpoint params] := by
  unfold SpotKitAPI._get
  rcases h : tryRequest T (api.getRequest endpoint params) with b | e <;> simp [h]

/-- A _post call issues exactly its one request, whatever the outcome. -/
theorem post_trace (api : SpotKitAPI) (T : Transport) (endpoint : String)
    (data : Option String) (auth : Option (String × String))
    (hdrs : Option Headers) :
    (api._post T endpoint data auth hdrs).2
      = [api.postRequest endpoint data auth hdrs] := by
  unfold SpotKitAPI._post
  rcases h : tryRequest T (api.postRequest endpoint data auth hdrs) with b | e <;> simp [h]

/-- A _patch call issues exactly its one request, whatever the outcome. -/
theorem patch_trace (api : SpotKitAPI) (T : Transport) (endpoint : String)
    (data : Option String) :
    (api._patch T endpoint data).2 = [api.patchRequest endpoint data] := by
  unfold SpotKitAPI._patch
  rcases h : tryRequest T (api.patchRequest endpoint data) with b | e <;> simp [h]

/-- A _delete call issues exactly its one request, whatever the outcome. -/
theorem delete_trace (api : SpotKitAPI) (T : Transport) (endpoint : String) :
    (api._delete T endpoint).2 = [api.deleteRequest endpoint] := by
  unfold SpotKitAPI._delete
  rcases h : tryRequest T (api.deleteRequest endpoint) with b | e <;> simp [h]

/-- The length of a full url is the prefix length plus the endpoint
length, so urls of different endpoints under one client differ. -/
theorem full_url_length (api : SpotKitAPI) (e : String) :
    (api._get_full_url e).length
      = BASE_URL.length + 1 + api.version.length + 1 + e.length := by
  have h1 : ("/" : String).length = 1 := rfl
  simp [SpotKitAPI._get_full_url, String.length_append, h1]

/-- The users endpoint url is never a users/{id} url. -/
theorem users_url_ne_users_id (api : SpotKitAPI) (i : String) :
    api._get_full_url "users" ≠ api._get_full_url ("users/" ++ i) := by
  intro heq
  have hlen := congrArg String.length heq
  have h5 : ("users" : String).length = 5 := rfl
  have h6 : ("users/" : String).length = 6 := rfl
  rw [full_url_length, full_url_length, String.length_append, h5, h6] at hlen
  omega

/-! Claim C8. -/

/-- C8: get_user called with neither id nor email (both absent, the
Python default None) raises ValueError with the invalid-argument
message and issues no HTTP request at all. -/
theorem get_user_requires_id_or_email (api : SpotKitAPI) (T : Transport) :
    api.get_user T .null .null
      = (.error (.valueError
          "You must specify at least one of user \x27id\x27 or user \x27email\x27."),
         []) := rfl

/-! Claim C6. -/

/-- C6: add_user(user_data) issues exactly one request: a POST to the
users endpoint whose body is the JSON serialization of the one-element
list holding exactly user_data. -/
theorem add_user_posts_singleton_batch (api : SpotKitAPI) (T : Transport)
    (u : JVal) :
    (api.add_user T u).2
      = [api.postRequest "users" (some (JVal.dumps (.arr [u]))) none none]
    ∧ (api.postRequest "users" (some (JVal.dumps (.arr [u]))) none none).body
      = some (JVal.dumps (.arr [u]))
    ∧ (api.postRequest "users" (some (JVal.dumps (.arr [u]))) none none).method
      = .POST
    ∧ (api.postRequest "users" (some (JVal.dumps (.arr [u]))) none none).url
      = api._get_full_url "users" := by
  refine ⟨?_, rfl, rfl, rfl⟩
  unfold SpotKitAPI.add_user
  exact post_trace api T "users" (some (JVal.dumps (.arr [u]))) none none

/-! Claim C3. -/

/-- C3 counterexample: a non-2xx HTTP status is NOT propagated to the
caller: with every request answered by status 500, _get returns the
single-key error mapping built from the HTTPError message, because
HTTPError is a subclass of RequestException and the blanket handler
catches it. The helper returns a plain value (its type has no
exception channel), so nothing is raised. -/
theorem http_status_converted_to_error_mapping :
    (apiV1._get T500 "me" none).1
      = errorObj ("500 Error for url: https://api.latest.highspot.com/v1.0/me")
    := rfl

/-- C3 amended: every verb helper converts BOTH failure classes into a
returned error mapping: a transport-level exception and the HTTPError
raised by raise_for_status on a non-2xx status are each caught by the
except RequestException handler (HTTPError being one of its
subclasses) and returned as the error mapping; no failure propagates,
as the helpers return plain values. -/
theorem verb_helpers_convert_all_failures (api : SpotKitAPI) (T : Transport)
    (endpoint : String) (params : Option (List (String × JVal)))
    (data pdata : Option String) (auth : Option (String × String))
    (hdrs : Option Headers) :
    (∀ c, T (api.getRequest endpoint params) = .httpStatus c →
       (api._get T endpoint params).1
         = errorObj (RequestException.message
             (.httpError c (api._get_full_url endpoint))))
    ∧ (∀ m, T (api.getRequest endpoint params) = .netFail m →
       (api._get T endpoint params).1 = errorObj m)
    ∧ (∀ c, T (api.postRequest endpoint data auth hdrs) = .httpStatus c →
       (api._post T endpoint data auth hdrs).1
         = errorObj (RequestException.message
             (.httpError c (api._get_full_url endpoint))))
    ∧ (∀ m, T (api.postRequest endpoint data auth hdrs) = .netFail m →
       (api._post T endpoint data auth hdrs).1 = errorObj m)
    ∧ (∀ c, T (api.patchRequest endpoint pdata) = .httpStatus c →
       (api._patch T endpoint pdata).1
         = errorObj (RequestException.message
             (.httpError c (api._get_full_url endpoint))))
    ∧ (∀ m, T (api.patchRequest endpoint pdata) = .netFail m →
       (api._patch T endpoint pdata).1 = errorObj m)
    ∧ (∀ c, T (api.deleteRequest endpoint) = .httpStatus c →
       (api._delete T endpoint).1
         = errorObj (RequestException.message
             (.httpError c (api._get_full_url endpoint))))
    ∧ (∀ m, T (api.deleteRequest endpoint) = .netFail m →
       (api._delete T endpoint).1 = errorObj m) := by
  refine ⟨?_, ?_, ?_, ?_, ?_, ?_, ?_, ?_⟩ <;> intro x hx <;>
    simp only [SpotKitAPI._get, SpotKitAPI._post, SpotKitAPI._patch,
      SpotKitAPI._delete, tryRequest, SpotKitAPI.getRequest,
      SpotKitAPI.postRequest, SpotKitAPI.patchRequest,
      SpotKitAPI.deleteRequest] at hx ⊢ <;>
    rw [hx] <;>
    simp [RequestException.message]

/-- C3 witness: the amended theorem applied on a network answering
status 500, at the me endpoint of the concrete bearer client. -/
theorem verb_helpers_convert_all_failures_witness :
    (apiV1._get T500 "me" none).1
      = errorObj (RequestException.message
          (.httpError 500 (apiV1._get_full_url "me"))) :=
  (verb_helpers_convert_all_failures apiV1 T500 "me" none none none none
    none).1 500 rfl

/-- If v.get(k) found a value, then v[k] yields the same value. -/
theorem jGetItemStr_of_jGetAttr {u : JVal} {k : String} {v : JVal}
    (h : jGetAttr u k = .ok (some v)) : jGetItemStr u k = .ok v := by
  cases u <;> simp_all [jGetAttr, jGetItemStr]

/-! Claim C1. -/

/-- C1: when the list_users(email=E, list=all) lookup that get_user
performs returns a mapping whose collection entry is absent or the
empty list, get_user(email=E) returns the not-found error mapping, and
the only request issued is the GET to the users list endpoint; in
particular no request targets a users/{id} url. -/
theorem get_user_email_not_found (api : SpotKitAPI) (T : Transport) (E : String)
    (hE : E ≠ "")
    (h : jGetAttr (api.list_users T (.str E) (.num 25) (.num 0) (.str "all")
            .null .null).1 "collection" = .ok none
       ∨ jGetAttr (api.list_users T (.str E) (.num 25) (.num 0) (.str "all")
            .null .null).1 "collection" = .ok (some (.arr []))) :
    (api.get_user T .null (.str E)).1
      = .ok (errorObj "User not found with the provided email.")
    ∧ (api.get_user T .null (.str E)).2
      = [api.getRequest "users" (some [("email", .str E), ("limit", .num 25),
          ("start", .num 0), ("list", .str "all")])]
    ∧ ∀ r ∈ (api.get_user T .null (.str E)).2, ∀ i : String,
        r.url ≠ api._get_full_url ("users/" ++ i) := by
  have hc1 : (!JVal.truthy .null && !JVal.truthy (.str E)) = false := by
    simp [JVal.truthy, hE]
  have hc2 : JVal.truthy (.str E) = true := by
    simp [JVal.truthy, hE]
  have hlu : api.list_users T (.str E) (.num 25) (.num 0) (.str "all")
      .null .null
      = api._get T "users" (some [("email", .str E), ("limit", .num 25),
          ("start", .num 0), ("list", .str "all")]) := rfl
  have hgu : api.get_user T .null (.str E)
      = (.ok (errorObj "User not found with the provided email."),
         (api.list_users T (.str E) (.num 25) (.num 0) (.str "all")
           .null .null).2) := by
    rcases h with h | h <;>
      simp [SpotKitAPI.get_user, hc1, hc2, h, JVal.truthy, hE]
  refine ⟨by rw [hgu], ?_, ?_⟩
  · rw [hgu, hlu]
    exact get_trace api T "users" _
  · intro r hr i
    rw [hgu, hlu, get_trace api T "users" _] at hr
    rcases List.mem_singleton.mp hr with rfl
    exact users_url_ne_users_id api i

/-- C1 witness: the theorem applied to the concrete bearer client on a
network that always answers with an empty collection. -/
theorem get_user_email_not_found_witness :
    (apiV1.get_user TemptyColl .null (.str "e")).1
      = .ok (errorObj "User not found with the provided email.") :=
  (get_user_email_not_found apiV1 TemptyColl "e" (by decide) (Or.inr rfl)).1

/-! Claim C9. -/

/-- C9: when get_user receives both an id and an email, the supplied id
is ignored: the email lookup runs, the id of the first collection
record determines the final GET url users/{resolved id}, and the
result and the issued requests do not depend on the supplied id. -/
theorem get_user_ignores_supplied_id (api : SpotKitAPI) (T : Transport)
    (I E J : String) (fs : List (String × JVal)) (rest : List JVal)
    (hE : E ≠ "")
    (h : jGetAttr (api.list_users T (.str E) (.num 25) (.num 0) (.str "all")
            .null .null).1 "collection" = .ok (some (.arr (.obj fs :: rest))))
    (hid : List.lookup "id" fs = some (.str J)) :
    api.get_user T (.str I) (.str E)
      = (.ok (api._get T ("users/" ++ J) none).1,
         (api.list_users T (.str E) (.num 25) (.num 0) (.str "all") .null
             .null).2 ++ [api.getRequest ("users/" ++ J) none])
    ∧ (api.getRequest ("users/" ++ J) none).url
        = api._get_full_url ("users/" ++ J) := by
  have hc1 : (!JVal.truthy (.str I) && !JVal.truthy (.str E)) = false := by
    simp [JVal.truthy, hE]
  have hc2 : JVal.truthy (.str E) = true := by
    simp [JVal.truthy, hE]
  have hitem := jGetItemStr_of_jGetAttr h
  refine ⟨?_, rfl⟩
  simp only [SpotKitAPI.get_user, hc1, hc2, Bool.false_eq_true, if_false,
    if_true, h]
  rw [hitem]
  simp only [JVal.truthy, List.isEmpty, Bool.not_false, if_true, jIndex0]
  simp only [jGetItemStr, hid, JVal.pyStr]
  simp [hE, get_trace]

/-- A network that answers the users list request (recognizable by its
params mapping) with a one-record collection whose id is 42 and every
other request with a user object. -/
def TuserLookup : Transport := fun r =>
  if r.params.isSome then
    .ok (.obj [("collection", .arr [.obj [("id", .str "42")]])])
  else
    .ok (.obj [("name", .str "x")])

/-- C9 witness: with id 7 and email e supplied together, the final GET
targets users/42, the id from the email lookup, not users/7. -/
theorem get_user_ignores_supplied_id_witness :
    apiV1.get_user TuserLookup (.str "7") (.str "e")
      = (.ok (.obj [("name", .str "x")]),
         [apiV1.getRequest "users" (some [("email", .str "e"),
            ("limit", .num 25), ("start", .num 0), ("list", .str "all")]),
          apiV1.getRequest "users/42" none]) := by
  have h := (get_user_ignores_supplied_id apiV1 TuserLookup "7" "e" "42"
    [("id", .str "42")] [] (by decide) rfl rfl).1
  exact h

/-! Claim C7. -/

/-- True exactly on dict values; collection records are dicts. -/
def isObjB : JVal → Bool
  | .obj _ => true
  | _ => false

/-- Spec-side reading of the C7 claim: a spot record matches when its
title entry is exactly the given name. -/
def spotTitleIs (s : JVal) (name : String) : Bool :=
  match s with
  | .obj fields =>
      (match List.lookup "title" fields with
       | some (.str t) => t == name
       | _ => false)
  | _ => false

/-- Spec-side reading of the C7 claim: the id entry of a spot record,
Python None when the record has no id. -/
def spotIdOf : JVal → JVal
  | .obj fields => (List.lookup "id" fields).getD .null
  | _ => .null

/-- The source scan over the collection agrees with the first-match
formulation List.find? as long as every record is a dict. -/
theorem findSpot_eq_find (name : String) (spots : List JVal)
    (hobj : spots.all isObjB = true) :
    findSpot name spots
      = .ok ((spots.find? (fun s => spotTitleIs s name)).map spotIdOf) := by
  induction spots with
  | nil => rfl
  | cons s rest ih =>
      rw [List.all_cons, Bool.and_eq_true] at hobj
      obtain ⟨h1, h2⟩ := hobj
      cases s with
      | obj fields =>
          cases ht : (match List.lookup "title" fields with
              | some (JVal.str t) => t == name
              | _ => false) with
          | true => simp [findSpot, List.find?, spotTitleIs, ht, spotIdOf]
          | false => simp [findSpot, List.find?, spotTitleIs, ht, ih h2]
      | null => simp [isObjB] at h1
      | bool b => simp [isObjB] at h1
      | num n => simp [isObjB] at h1
      | str st => simp [isObjB] at h1
      | arr xs => simp [isObjB] at h1

/-- C7: whenever the collection of the list_spots() response is a
sequence of records (dicts) — with the absent-collection case arriving
here as the empty default sequence — get_spot_by_name(name) returns
the id entry of the first record whose title equals name, and the
not-found sentinel string when no title matches (in particular when
the collection is absent or empty). -/
theorem get_spot_by_name_first_title_match (api : SpotKitAPI) (T : Transport)
    (name : String) (role : JVal) (spots : List JVal)
    (h : jGetAttrD (api.list_spots T role (.num 100) (.num 0)).1 "collection"
          (.arr []) = .ok (.arr spots))
    (hobj : spots.all isObjB = true) :
    (api.get_spot_by_name T name role).1
      = .ok (match spots.find? (fun s => spotTitleIs s name) with
             | some s => spotIdOf s
             | none => .str "Spot not found") := by
  have hf := findSpot_eq_find name spots hobj
  simp only [SpotKitAPI.get_spot_by_name, h, hf]
  cases hfind : spots.find? (fun s => spotTitleIs s name) <;> simp [hfind]

/-- A network whose every response carries a two-record collection. -/
def TtwoSpots : Transport := fun _ =>
  .ok (.obj [("collection", .arr
    [.obj [("title", .str "alpha"), ("id", .str "11")],
     .obj [("title", .str "beta"), ("id", .str "22")]])])

/-- C7 witness: on the two-record collection, the second title matches
and its id is returned. -/
theorem get_spot_by_name_first_title_match_witness :
    (apiV1.get_spot_by_name TtwoSpots "beta" .null).1 = .ok (.str "22") := by
  have h := get_spot_by_name_first_title_match apiV1 TtwoSpots "beta" .null
    [.obj [("title", .str "alpha"), ("id", .str "11")],
     .obj [("title", .str "beta"), ("id", .str "22")]] rfl rfl
  exact h.trans (by rfl)

/-! Claim C2. -/

/-- A transmitted query pair always stems from a params entry with the
same key, a non-None value, and the str() rendering of that value. -/
theorem transmittedQuery_mem (ps : List (String × JVal)) (k : String)
    (v : String) (h : (k, v) ∈ transmittedQuery (some ps)) :
    ∃ w, (k, w) ∈ ps ∧ w.isNull = false ∧ v = w.pyStr := by
  simp only [transmittedQuery, List.mem_filterMap] at h
  obtain ⟨⟨k0, w⟩, hmem, hf⟩ := h
  cases hn : w.isNull with
  | true => simp [hn] at hf
  | false =>
      simp only [hn, Bool.false_eq_true, if_false, Option.some.injEq,
        Prod.mk.injEq] at hf
      obtain ⟨hk, hv⟩ := hf
      exact ⟨w, hk ▸ hmem, hn, hv.symm⟩

/-- In an association list with pairwise distinct keys, one key maps to
at most one value. -/
theorem assoc_value_unique {β : Type} (ps : List (String × β))
    (hnd : (ps.map Prod.fst).Nodup) {k : String} {a b : β}
    (ha : (k, a) ∈ ps) (hb : (k, b) ∈ ps) : a = b := by
  induction ps with
  | nil => cases ha
  | cons p rest ih =>
      rw [List.map_cons, List.nodup_cons] at hnd
      obtain ⟨hp, hrest⟩ := hnd
      rcases List.mem_cons.mp ha with ha1 | ha1 <;>
        rcases List.mem_cons.mp hb with hb1 | hb1
      · rw [← ha1] at hb1; exact (Prod.mk.injEq _ _ _ _ ▸ hb1).2.symm ▸ rfl
      · exact absurd (List.mem_map.mpr ⟨(k, b), hb1, by rw [← ha1]⟩) hp
      · exact absurd (List.mem_map.mpr ⟨(k, a), ha1, by rw [← hb1]⟩) hp
      · exact ih hrest ha1 hb1

/-- A request never transmits a key that its params dict maps to None. -/
def noneKeyNotTransmitted (r : Request) : Prop :=
  ∀ k, (k, JVal.null) ∈ r.params.getD [] →
    ∀ v, (k, v) ∉ transmittedQuery r.params

/-- With pairwise distinct keys, an entry whose value is None yields no
transmitted pair for its key. -/
theorem noneKey_not_transmitted_of_nodup (ps : List (String × JVal))
    (hnd : (ps.map Prod.fst).Nodup) (k : String)
    (hk : (k, JVal.null) ∈ ps) (v : String) :
    (k, v) ∉ transmittedQuery (some ps) := by
  intro hv
  obtain ⟨w, hw, hwn, rfl⟩ := transmittedQuery_mem ps k v hv
  have hnw : JVal.null = w := assoc_value_unique ps hnd hk hw
  rw [← hnw] at hwn
  simp [JVal.isNull] at hwn

/-- C2 amended: a transmitted query pair always comes from a params
entry whose value is not None (absent values are excluded by the
requests library, and list_users additionally filters them); in
particular list_users, list_spots, list_items_in_spot and list_groups
never transmit a key whose value in the params dict was None. An
empty-string value, by contrast, is kept and transmitted (see the
counterexample). -/
theorem params_none_dropped (api : SpotKitAPI) (T : Transport)
    (email limit start lo wf ef role slimit sstart : JVal) (sid : String)
    (ilimit istart grole glimit gstart : JVal) :
    (∀ ps (k v : String), (k, v) ∈ transmittedQuery (some ps) →
       ∃ w, (k, w) ∈ ps ∧ w.isNull = false ∧ v = w.pyStr)
    ∧ (∀ r ∈ (api.list_users T email limit start lo wf ef).2,
        noneKeyNotTransmitted r)
    ∧ (∀ r ∈ (api.list_spots T role slimit sstart).2, noneKeyNotTransmitted r)
    ∧ (∀ r ∈ (api.list_items_in_spot T sid ilimit istart).2,
        noneKeyNotTransmitted r)
    ∧ (∀ r ∈ (api.list_groups T grole glimit gstart).2,
        noneKeyNotTransmitted r) := by
  refine ⟨transmittedQuery_mem, ?_, ?_, ?_, ?_⟩
  · intro r hr
    rw [show (api.list_users T email limit start lo wf ef).2
        = (api._get T "users" (some ([("email", email), ("limit", limit),
            ("start", start), ("list", lo), ("with-fields", wf),
            ("exclude-fields", ef)].filter (fun kv => !kv.2.isNull)))).2
        from rfl, get_trace] at hr
    rcases List.mem_singleton.mp hr with rfl
    intro k hk v
    refine noneKey_not_transmitted_of_nodup _ ?_ k hk v
    have hsub : ([("email", email), ("limit", limit), ("start", start),
        ("list", lo), ("with-fields", wf), ("exclude-fields", ef)].filter
          (fun kv => !kv.2.isNull)).Sublist
        [("email", email), ("limit", limit), ("start", start), ("list", lo),
         ("with-fields", wf), ("exclude-fields", ef)] :=
      List.filter_sublist _
    refine (hsub.map Prod.fst).nodup ?_
    simp only [List.map_cons, List.map_nil]
    decide
  · intro r hr
    rw [show (api.list_spots T role slimit sstart).2
        = (api._get T "spots" (some [("role", role), ("limit", slimit),
            ("start", sstart)])).2 from rfl, get_trace] at hr
    rcases List.mem_singleton.mp hr with rfl
    intro k hk v
    refine noneKey_not_transmitted_of_nodup _ ?_ k hk v
    show (["role", "limit", "start"] : List String).Nodup
    decide
  · intro r hr
    rw [show (api.list_items_in_spot T sid ilimit istart).2
        = (api._get T ("spots/" ++ sid ++ "/lists")
            (some [("limit", ilimit), ("start", istart)])).2 from rfl,
      get_trace] at hr
    rcases List.mem_singleton.mp hr with rfl
    intro k hk v
    refine noneKey_not_transmitted_of_nodup _ ?_ k hk v
    show (["limit", "start"] : List String).Nodup
    decide
  · intro r hr
    rw [show (api.list_groups T grole glimit gstart).2
        = (api._get T "groups" (some [("role", grole), ("limit", glimit),
            ("start", gstart)])).2 from rfl, get_trace] at hr
    rcases List.mem_singleton.mp hr with rfl
    intro k hk v
    refine noneKey_not_transmitted_of_nodup _ ?_ k hk v
    show (["role", "limit", "start"] : List String).Nodup
    decide

/-- C2 witness: the amended theorem applied to list_spots with role
None; the role key is not transmitted. -/
theorem params_none_dropped_witness :
    ("role", "None")
      ∉ transmittedQuery (some [("role", JVal.null), ("limit", JVal.num 100),
          ("start", JVal.num 0)]) := by
  have h := params_none_dropped apiV1 Tdown .null .null .null .null .null
      .null .null (.num 100) (.num 0) "s" (.num 100) (.num 0) .null
      (.num 100) (.num 0)
  exact h.2.2.1 (apiV1.getRequest "spots" (some [("role", JVal.null),
      ("limit", JVal.num 100), ("start", JVal.num 0)]))
    (List.Mem.head _) "role" (List.Mem.head _) "None"

/-- C2 counterexample: a parameter whose value is the EMPTY string is
transmitted, not excluded: list_users(email="") keeps the email entry
(only None values are filtered) and the requests library renders it as
an empty query value, so the transmitted query string of the one
issued request contains the email key. -/
theorem empty_string_param_transmitted :
    ((apiV1.list_users Tdown (.str "") (.num 25) (.num 0) .null .null
        .null).2.map (fun r => transmittedQuery r.params))
      = [[("email", ""), ("limit", "25"), ("start", "0")]] := rfl

/-! Claim C4. -/

/-- The client produced by a construction whose token exchange failed:
the stored key is Python None and the Authorization header carries the
f-string rendering Bearer None. -/
def bearerNoneClient (version cid sec : String) : SpotKitAPI :=
  { version := version, api_key := .null, client_id := some cid,
    client_secret := some sec, use_basic_auth := false,
    headers := [("Authorization", "Bearer None"),
                ("Content-Type", "application/json")] }

/-- C4 counterexample: after a failed token exchange the Authorization
header value is the string Bearer None — NOT an empty header value and
NOT an empty bearer token: the falsy stored token (None) is rendered
into the f-string. -/
theorem failed_token_header_not_empty :
    (match (SpotKitAPI.init Tdown "v1.0" none (some "cid") (some "sec")
        false).1 with
     | .ok a => List.lookup "Authorization" a.headers
     | .error _ => none)
      = some "Bearer None"
    ∧ some "Bearer None" ≠ some ""
    ∧ some "Bearer None" ≠ some "Bearer " := by
  refine ⟨rfl, by decide, by decide⟩

/-- C4 amended: with basic auth off, no api_key, and truthy client
credentials, a token exchange that fails (transport failure or non-2xx
status) leaves the stored token falsy — it is Python None, since _post
returns a truthy error mapping without an access_token entry — and
every subsequent request of every verb carries the Authorization
header value Bearer None (the falsy token rendered into the bearer
f-string), not an empty header value. -/
theorem failed_token_exchange_bearer_none (T : Transport)
    (version cid sec m : String) (hc : cid ≠ "") (hs : sec ≠ "")
    (hfail : T (tokenRequest version (some cid) (some sec)) = .netFail m
       ∨ ∃ c, T (tokenRequest version (some cid) (some sec))
                = .httpStatus c) :
    SpotKitAPI.init T version none (some cid) (some sec) false
      = (.ok (bearerNoneClient version cid sec),
         [tokenRequest version (some cid) (some sec)])
    ∧ (bearerNoneClient version cid sec).api_key.truthy = false
    ∧ (∀ e p, List.lookup "Authorization"
        ((bearerNoneClient version cid sec).getRequest e p).headers
          = some "Bearer None")
    ∧ (∀ e d, List.lookup "Authorization"
        ((bearerNoneClient version cid sec).postRequest e d none none).headers
          = some "Bearer None")
    ∧ (∀ e d, List.lookup "Authorization"
        ((bearerNoneClient version cid sec).patchRequest e d).headers
          = some "Bearer None")
    ∧ (∀ e, List.lookup "Authorization"
        ((bearerNoneClient version cid sec).deleteRequest e).headers
          = some "Bearer None") := by
  refine ⟨?_, rfl, fun e p => rfl, fun e d => rfl, fun e d => rfl,
    fun e => rfl⟩
  have hcond : (!false && !(pyOfOptStr none).truthy
      && optStrTruthy (some cid) && optStrTruthy (some sec)) = true := by
    simp [pyOfOptStr, JVal.truthy, optStrTruthy, hc, hs]
  have hreq : (preClient version none (some cid) (some sec) false).postRequest
      "auth/oauth2/token" (some "grant_type=client_credentials")
      (some ((preClient version none (some cid) (some sec)
          false).client_id.getD "",
        (preClient version none (some cid) (some sec)
          false).client_secret.getD ""))
      (some [("Content-Type", "application/x-www-form-urlencoded")])
      = tokenRequest version (some cid) (some sec) := rfl
  rcases hfail with hf | ⟨c, hf⟩ <;>
    simp only [SpotKitAPI.init, hcond, if_true, SpotKitAPI._get_bearer_token,
      SpotKitAPI._post, hreq, tryRequest, hf] <;>
    rfl

/-- C4 witness: the amended theorem on a network where every request
fails at the transport level. -/
theorem failed_token_exchange_bearer_none_witness :
    SpotKitAPI.init Tdown "v1.0" none (some "cid") (some "sec") false
      = (.ok (bearerNoneClient "v1.0" "cid" "sec"),
         [tokenRequest "v1.0" (some "cid") (some "sec")]) :=
  (failed_token_exchange_bearer_none Tdown "v1.0" "cid" "sec" "down"
    (by decide) (by decide) (Or.inl rfl)).1

/-! Claim C5. -/

/-- The client produced by a basic-auth construction with no
credentials at all: subsequent requests attach no auth. -/
def basicNoCredClient : SpotKitAPI :=
  { version := "v1.0", api_key := .null, client_id := none,
    client_secret := none, use_basic_auth := true,
    headers := [("Authorization", ""),
                ("Content-Type", "application/json")] }

/-- C5 counterexample: construction with use_basic_auth=True but no
client credentials yields a client whose resource requests carry NO
basic-auth credentials (auth is None), contradicting the unconditional
every-call-attaches-Basic-credentials reading; _get_auth requires both
credentials to be truthy. -/
theorem basic_auth_without_credentials_sends_no_auth :
    (SpotKitAPI.init Tdown "v1.0" none none none true).1
      = .ok basicNoCredClient
    ∧ (basicNoCredClient.getRequest "me" none).auth = none := by
  exact ⟨rfl, rfl⟩

/-- C5 amended: construction with use_basic_auth=True never issues a
token-exchange request (for any key and credential arguments), and
when both client credentials are supplied non-empty, every request
built by any of the four verb helpers attaches exactly those HTTP
Basic credentials; construction with use_basic_auth=False, no api_key
and truthy credentials issues exactly one request, the POST to the
token endpoint, during construction and hence before any resource
call. -/
theorem auth_mode_selection (T : Transport) (version cid sec : String)
    (hc : cid ≠ "") (hs : sec ≠ "") :
    (∀ key cid0 sec0,
       (SpotKitAPI.init T version key cid0 sec0 true).2 = [])
    ∧ (∀ key, (SpotKitAPI.init T version key (some cid) (some sec) true).1
        = .ok { version := version, api_key := pyOfOptStr key,
                client_id := some cid, client_secret := some sec,
                use_basic_auth := true,
                headers := mkHeaders true (pyOfOptStr key) })
    ∧ (∀ (a : SpotKitAPI), a.use_basic_auth = true → a.client_id = some cid →
        a.client_secret = some sec →
        (∀ e p, (a.getRequest e p).auth = some (cid, sec))
        ∧ (∀ e d, (a.postRequest e d none none).auth = some (cid, sec))
        ∧ (∀ e d, (a.patchRequest e d).auth = some (cid, sec))
        ∧ (∀ e, (a.deleteRequest e).auth = some (cid, sec)))
    ∧ ((SpotKitAPI.init T version none (some cid) (some sec) false).2
        = [tokenRequest version (some cid) (some sec)])
    ∧ (tokenRequest version (some cid) (some sec)).method = .POST
    ∧ (tokenRequest version (some cid) (some sec)).url
        = BASE_URL ++ "/" ++ version ++ "/" ++ "auth/oauth2/token" := by
  have hauth : ∀ (a : SpotKitAPI), a.use_basic_auth = true →
      a.client_id = some cid → a.client_secret = some sec →
      a._get_auth = some (cid, sec) := by
    intro a h1 h2 h3
    simp [SpotKitAPI._get_auth, h1, h2, h3, optStrTruthy, hc, hs]
  refine ⟨fun key cid0 sec0 => rfl, fun key => rfl, ?_, ?_, rfl, rfl⟩
  · intro a h1 h2 h3
    exact ⟨fun e p => by simp [SpotKitAPI.getRequest, hauth a h1 h2 h3],
      fun e d => by simp [SpotKitAPI.postRequest, hauth a h1 h2 h3],
      fun e d => by simp [SpotKitAPI.patchRequest, hauth a h1 h2 h3],
      fun e => by simp [SpotKitAPI.deleteRequest, hauth a h1 h2 h3]⟩
  · have hcond : (!false && !(pyOfOptStr none).truthy
        && optStrTruthy (some cid) && optStrTruthy (some sec)) = true := by
      simp [pyOfOptStr, JVal.truthy, optStrTruthy, hc, hs]
    have hreq : (preClient version none (some cid) (some sec)
        false).postRequest "auth/oauth2/token"
        (some "grant_type=client_credentials")
        (some ((preClient version none (some cid) (some sec)
            false).client_id.getD "",
          (preClient version none (some cid) (some sec)
            false).client_secret.getD ""))
        (some [("Content-Type", "application/x-www-form-urlencoded")])
        = tokenRequest version (some cid) (some sec) := rfl
    simp only [SpotKitAPI.init, hcond, if_true, SpotKitAPI._get_bearer_token,
      SpotKitAPI._post, hreq]
    rcases htr : tryRequest T (tokenRequest version (some cid) (some sec))
      with b | e <;> simp only [htr] <;> split <;> rfl

/-- C5 witness: the amended theorem on a network that answers the token
request with a token body: construction in bearer mode issues exactly
the one token-exchange request. -/
theorem auth_mode_selection_witness :
    (SpotKitAPI.init Tok "v1.0" none (some "cid") (some "sec") false).2
      = [tokenRequest "v1.0" (some "cid") (some "sec")] :=
  (auth_mode_selection Tok "v1.0" "cid" "sec" (by decide)
    (by decide)).2.2.2.1

/-! Claim C10. -/

/-- C10: when the underlying list request fails at the transport level,
the list helper returns the error mapping, which has no collection
entry, so get_user(email=E) returns its not-found error mapping and
get_spot_by_name(name) returns its not-found sentinel: the transport
error message m is discarded and the outcome equals a genuine no-match
result. -/
theorem transport_error_reads_as_not_found (api : SpotKitAPI) (T : Transport)
    (E name m : String) (role : JVal) (hE : E ≠ "") :
    (T (api.getRequest "users" (some [("email", .str E), ("limit", .num 25),
          ("start", .num 0), ("list", .str "all")])) = .netFail m →
       api.get_user T .null (.str E)
         = (.ok (errorObj "User not found with the provided email."),
            [api.getRequest "users" (some [("email", .str E),
              ("limit", .num 25), ("start", .num 0), ("list", .str "all")])]))
    ∧ (T (api.getRequest "spots" (some [("role", role), ("limit", .num 100),
          ("start", .num 0)])) = .netFail m →
       api.get_spot_by_name T name role
         = (.ok (.str "Spot not found"),
            [api.getRequest "spots" (some [("role", role), ("limit", .num 100),
              ("start", .num 0)])])) := by
  constructor
  · intro hf
    have hc1 : (!JVal.truthy .null && !JVal.truthy (.str E)) = false := by
      simp [JVal.truthy, hE]
    have hc2 : JVal.truthy (.str E) = true := by
      simp [JVal.truthy, hE]
    have hlu : api.list_users T (.str E) (.num 25) (.num 0) (.str "all")
        .null .null
        = (errorObj m,
           [api.getRequest "users" (some [("email", .str E), ("limit", .num 25),
             ("start", .num 0), ("list", .str "all")])]) := by
      have hfil : List.filter (fun kv => !kv.2.isNull)
          [("email", JVal.str E), ("limit", JVal.num 25), ("start", JVal.num 0),
           ("list", JVal.str "all"), ("with-fields", JVal.null),
           ("exclude-fields", JVal.null)]
          = [("email", JVal.str E), ("limit", JVal.num 25), ("start", JVal.num 0),
             ("list", JVal.str "all")] := rfl
      simp only [SpotKitAPI.list_users, hfil, SpotKitAPI._get, tryRequest, hf]
      rfl
    have hlk : List.lookup "collection" [("error", JVal.str m)] = none := rfl
    simp [SpotKitAPI.get_user, hc1, hc2, hlu, jGetAttr, errorObj, hE, hlk]
  · intro hf
    have hls : api.list_spots T role (.num 100) (.num 0)
        = (errorObj m,
           [api.getRequest "spots" (some [("role", role), ("limit", .num 100),
             ("start", .num 0)])]) := by
      simp only [SpotKitAPI.list_spots, SpotKitAPI._get, tryRequest, hf]
      rfl
    have hlk : List.lookup "collection" [("error", JVal.str m)] = none := rfl
    simp [SpotKitAPI.get_spot_by_name, hls, jGetAttrD, jGetAttr, errorObj,
      findSpot, hlk]

/-- C10 witness: both parts on a network where every request fails at
the transport level. -/
theorem transport_error_reads_as_not_found_witness :
    apiV1.get_user Tdown .null (.str "e")
      = (.ok (errorObj "User not found with the provided email."),
         [apiV1.getRequest "users" (some [("email", .str "e"),
           ("limit", .num 25), ("start", .num 0), ("list", .str "all")])]) :=
  (transport_error_reads_as_not_found apiV1 Tdown "e" "n" "down" .null
    (by decide)).1 rfl

end SpotKit
